import Mathlib

/-! # flag_tool: a shallow embedding of `src/flag_tool.c`

The tool locates a SQLite store relative to its own executable, opens it,
dispatches on the argument vector (help, dump, flag-by-id) and closes it.

Everything the C program does to the outside world is recorded as an `Event`
in a trace, so that the standard output, the error stream, the statements
handed to the engine and the open/close calls can all be read back from one
run.  The operating system and the SQLite engine are not part of the
repository; they enter as an environment `Env` that the program is run
against.
-/

set_option autoImplicit false

namespace FlagTool

/-! ## Strings and the constants of the program -/

/-- A C string: the bytes before the terminating NUL. -/
abbrev CStr := List Char

/-- The value of `PATH_MAX` from `<limits.h>` on Linux. -/
def PATH_MAX : Nat := 4096

/-- The size of the `query` buffer declared in `main`. -/
def QUERY_SIZE : Nat := 512

/-- SQLite's success code. -/
def SQLITE_OK : Int := 0

/-- SQLite's code for a statement stopped by its row callback. -/
def SQLITE_ABORT : Int := 4

/-- The usage text `docStr`. -/
def docStr : CStr :=
  ("ITU-Minitwit Tweet Flagging Tool\n\n" ++
   "Usage:\n" ++
   "  flag_tool <tweet_id>...\n" ++
   "  flag_tool -i\n" ++
   "  flag_tool -h\n" ++
   "Options:\n" ++
   "-h            Show this screen.\n" ++
   "-i            Dump all tweets and authors to STDOUT.\n").toList

/-- The help flag. -/
def HELP_FLAG : CStr := "-h".toList

/-- The dump flag. -/
def DUMP_FLAG : CStr := "-i".toList

/-- The statement issued in dump mode. -/
def SELECT_ALL : CStr := "SELECT * FROM message".toList

/-- The text of the write statement's format string before its `%s`. -/
def UPDATE_HEAD : CStr := "UPDATE message SET flagged=1 WHERE message_id=".toList

/-- The suffix that `get_db_path` appends to the executable's directory. -/
def DB_SUFFIX : CStr := "/tmp/minitwit".toList

/-- The call `snprintf(buf, size, fmt, …)`: the formatted text, cut to
`size - 1` bytes so that it fits the buffer together with its NUL. -/
def snprintf (size : Nat) (text : CStr) : CStr := text.take (size - 1)

/-! ## The outside world -/

/-- What a run does to the outside world, in program order. -/
inductive Event where
  | stdout (s : CStr)
  | stderr (s : CStr)
  | sqlite3_open (path : CStr)
  | sqlite3_exec (sql : CStr)
  | sqlite3_close
  deriving DecidableEq, Repr

/-- One row handed to the row callback: `argv[0..argc-1]`, a NULL column
being `none`. -/
abbrev RowValues := List (Option CStr)

/-- What the engine does with one statement text on a store `σ`: its return
code, its error text, the rows it produces (in order) and the store after. -/
structure StmtResult (σ : Type) where
  rc : Int
  zErrMsg : CStr
  rows : List RowValues
  db : σ

/-- The environment of one run: the operating system's answer for
`/proc/self/exe` (the link target, or the error text of `errno`), the
outcome of `sqlite3_open` on a path with the text of `sqlite3_errmsg`, and
the engine's evaluation of a statement. -/
structure Env (σ : Type) where
  exe : Except CStr CStr
  open_rc : CStr → Int
  errmsg : CStr
  step : σ → CStr → StmtResult σ

/-- The call `readlink("/proc/self/exe", buf, bufsiz)`: the link target,
silently cut to `bufsiz` bytes; an error stands for the return value `-1`. -/
def readlink {σ : Type} (env : Env σ) (bufsiz : Nat) : Except CStr CStr :=
  match env.exe with
  | .error e => .error e
  | .ok target => .ok (target.take bufsiz)

/-- The C library's `dirname` (`<libgen.h>`), after the GNU implementation:
trailing slashes are ignored, the last component is removed together with
the slashes before it; a path without a directory part gives `.`, a path
whose directory part is only slashes gives `/` (`//` for exactly two). -/
def dirname (path : CStr) : CStr :=
  let slashes (p : CStr) : CStr := if p.length = 2 then "//".toList else "/".toList
  if path = [] then ".".toList
  else
    let q := path.rdropWhile (· == '/')
    if q = [] then slashes path
    else
      let head := q.rdropWhile (· != '/')
      if head = [] then ".".toList
      else
        let r := head.rdropWhile (· == '/')
        if r = [] then slashes head else r

/-! ## The program -/

/-- The row callback `callback`: prints every column, `NULL` for a null
pointer, a comma after each column but the last and a newline after the
last; returns 0.  The result is the text written to standard output and the
return value. -/
def callbackPrint : RowValues → CStr
  | [] => []
  | [v] => v.getD "NULL".toList ++ "\n".toList
  | v :: w :: rest => v.getD "NULL".toList ++ ",".toList ++ callbackPrint (w :: rest)

/-- The row callback with its return value. -/
def callback (argv : RowValues) : CStr × Int := (callbackPrint argv, 0)

/-- How `sqlite3_exec` drives a row callback: one call per row, in order,
stopping at the first call that returns non-zero.  Gives the events written
and whether the statement was stopped. -/
def deliver (cb : RowValues → CStr × Int) : List RowValues → List Event × Bool
  | [] => ([], false)
  | row :: rest =>
    if (cb row).2 ≠ 0 then ([Event.stdout (cb row).1], true)
    else (Event.stdout (cb row).1 :: (deliver cb rest).1, (deliver cb rest).2)

/-- The result of one `sqlite3_exec` call as `main` sees it. -/
structure ExecResult (σ : Type) where
  rc : Int
  zErrMsg : CStr
  events : List Event
  db : σ

/-- The call `sqlite3_exec(db, sql, cb, data, &zErrMsg)`: the engine evaluates
the statement, every row goes through the callback, and a callback that
returns non-zero turns the result into `SQLITE_ABORT`. -/
def sqlite3_exec {σ : Type} (env : Env σ) (db : σ) (sql : CStr)
    (cb : RowValues → CStr × Int) : ExecResult σ :=
  let r := env.step db sql
  let d := deliver cb r.rows
  if d.2 then ⟨SQLITE_ABORT, "query aborted".toList, d.1, r.db⟩
  else ⟨r.rc, r.zErrMsg, d.1, r.db⟩

/-- The function `get_db_path`: the directory of the running executable
followed by `/tmp/minitwit`, written with `snprintf` into a buffer of `size`
bytes.  An error stands for `perror("readlink"); exit(1)`. -/
def get_db_path {σ : Type} (env : Env σ) (size : Nat) : Except CStr CStr :=
  match readlink env (PATH_MAX - 1) with
  | .error e => .error e
  | .ok exe_path => .ok (snprintf size (dirname exe_path ++ DB_SUFFIX))

/-- The statement text built for one argument of flag mode. -/
def flagQuery (arg : CStr) : CStr := snprintf QUERY_SIZE (UPDATE_HEAD ++ arg)

/-- The report printed after one flag statement. -/
def flagReport (rc : Int) (zErrMsg arg : CStr) : Event :=
  if rc ≠ SQLITE_OK then Event.stderr ("SQL error: ".toList ++ zErrMsg ++ "\n".toList)
  else Event.stdout ("Flagged entry: ".toList ++ arg ++ "\n".toList)

/-- The loop of step 4b over `argv[1..argc-1]`: the store after the loop and
the events of the loop. -/
def flagLoop {σ : Type} (env : Env σ) : List CStr → σ → σ × List Event
  | [], db => (db, [])
  | arg :: rest, db =>
    let r := sqlite3_exec env db (flagQuery arg) callback
    ((flagLoop env rest r.db).1,
      Event.sqlite3_exec (flagQuery arg) :: r.events ++
        flagReport r.rc r.zErrMsg arg :: (flagLoop env rest r.db).2)

/-- The result of a run: exit status, store after the run, trace. -/
structure Outcome (σ : Type) where
  status : Int
  db : σ
  trace : List Event

/-- The function `main`, run on the whole argument vector (`argv[0]` is the
program name) against a store `db`. -/
def main {σ : Type} (env : Env σ) (argv : List CStr) (db : σ) : Outcome σ :=
  match get_db_path env PATH_MAX with
  | .error e => ⟨1, db, [Event.stderr ("readlink: ".toList ++ e ++ "\n".toList)]⟩
  | .ok db_path =>
    let t0 := [Event.stdout ("Opening database at: ".toList ++ db_path ++ "\n".toList),
               Event.sqlite3_open db_path]
    if env.open_rc db_path ≠ 0 then
      ⟨1, db, t0 ++ [Event.stderr ("Can't open database: ".toList ++ env.errmsg ++ "\n".toList)]⟩
    else if argv.length = 2 ∧ argv[1]? = some HELP_FLAG then
      ⟨0, db, t0 ++ [Event.stdout (docStr ++ "\n".toList), Event.sqlite3_close]⟩
    else if argv.length = 2 ∧ argv[1]? = some DUMP_FLAG then
      let r := sqlite3_exec env db SELECT_ALL callback
      ⟨0, r.db, t0 ++ Event.sqlite3_exec SELECT_ALL :: r.events ++
        (if r.rc ≠ SQLITE_OK then
          [Event.stderr ("SQL error: ".toList ++ r.zErrMsg ++ "\n".toList)] else []) ++
        [Event.sqlite3_close]⟩
    else if argv.length ≥ 2 ∧ argv[1]? ≠ some DUMP_FLAG ∧ argv[1]? ≠ some HELP_FLAG then
      ⟨0, (flagLoop env (argv.drop 1) db).1,
        t0 ++ (flagLoop env (argv.drop 1) db).2 ++ [Event.sqlite3_close]⟩
    else
      ⟨0, db, t0 ++ [Event.sqlite3_close]⟩

/-! ## Reading a trace -/

/-- The text written to standard output. -/
def stdoutOf : List Event → CStr
  | [] => []
  | Event.stdout s :: t => s ++ stdoutOf t
  | _ :: t => stdoutOf t

/-- The text written to the error stream. -/
def stderrOf : List Event → CStr
  | [] => []
  | Event.stderr s :: t => s ++ stderrOf t
  | _ :: t => stderrOf t

/-- The statements handed to the engine, in order. -/
def queriesOf : List Event → List CStr
  | [] => []
  | Event.sqlite3_exec q :: t => q :: queriesOf t
  | _ :: t => queriesOf t

/-- The number of `sqlite3_open` calls. -/
def opensOf : List Event → Nat
  | [] => 0
  | Event.sqlite3_open _ :: t => opensOf t + 1
  | _ :: t => opensOf t

/-- The number of `sqlite3_close` calls. -/
def closesOf : List Event → Nat
  | [] => 0
  | Event.sqlite3_close :: t => closesOf t + 1
  | _ :: t => closesOf t

/-- The events of the row callback for the rows of one statement. -/
def rowEvents (rows : List RowValues) : List Event :=
  rows.map fun row => Event.stdout (callbackPrint row)

/-- The program reached the dispatcher: the store path was resolved to `p`
and `sqlite3_open` succeeded on it. -/
def SetupOk {σ : Type} (env : Env σ) (p : CStr) : Prop :=
  get_db_path env PATH_MAX = .ok p ∧ env.open_rc p = 0

/-- The two events every run starts with once the path is resolved. -/
def announce (p : CStr) : List Event :=
  [Event.stdout ("Opening database at: ".toList ++ p ++ "\n".toList), Event.sqlite3_open p]

/-! ## The engine seen from outside

The statements of the tool are evaluated by SQLite, which is not part of the
repository.  The general theorems quantify over every engine; where a claim
speaks about rows of the message table, the engine's documented behaviour on
the tool's write statement is a hypothesis (`UpdatesById`), and `refStep` is
a small engine that satisfies it. -/

/-- The engine's answers to a list of statements evaluated one after the
other, starting from `db`. -/
def answers {σ : Type} (env : Env σ) : σ → List CStr → List (StmtResult σ)
  | _, [] => []
  | db, q :: qs => env.step db q :: answers env (env.step db q).db qs

/-- A row of the message table: its identifier, its flagged marker and its
other columns. -/
structure Row where
  message_id : Nat
  cols : List (Option CStr)
  flagged : Nat
  deriving DecidableEq, Repr

/-- The effect of `UPDATE message SET flagged=1 WHERE message_id=n` on the
message table. -/
def setFlagged (n : Nat) (table : List Row) : List Row :=
  table.map fun r => if r.message_id = n then { r with flagged := 1 } else r

/-- The value of a decimal numeral (one or more ASCII digits). -/
def numeral (s : CStr) : Option Nat :=
  if s ≠ [] ∧ s.all Char.isDigit = true then
    some (s.foldl (fun acc c => 10 * acc + (c.toNat - '0'.toNat)) 0)
  else none

/-- The engine's behaviour on the tool's write statement with a decimal
numeral: it succeeds, produces no rows and sets the flagged marker of the
rows with that identifier. -/
def UpdatesById (step : List Row → CStr → StmtResult (List Row)) : Prop :=
  ∀ (table : List Row) (lit : CStr) (n : Nat), numeral lit = some n →
    (step table (UPDATE_HEAD ++ lit)).rc = SQLITE_OK ∧
    (step table (UPDATE_HEAD ++ lit)).rows = [] ∧
    (step table (UPDATE_HEAD ++ lit)).db = setFlagged n table

/-- The columns of a row as the engine hands them to the callback. -/
def rowValues (r : Row) : RowValues :=
  some (Nat.repr r.message_id).toList :: r.cols ++ [some (Nat.repr r.flagged).toList]

/-- A small engine over the message table: it knows the dump statement and
the write statement with a decimal numeral, and rejects everything else. -/
def refStep (table : List Row) (sql : CStr) : StmtResult (List Row) :=
  if sql = SELECT_ALL then ⟨SQLITE_OK, [], table.map rowValues, table⟩
  else if sql.take UPDATE_HEAD.length = UPDATE_HEAD then
    match numeral (sql.drop UPDATE_HEAD.length) with
    | some n => ⟨SQLITE_OK, [], [], setFlagged n table⟩
    | none => ⟨1, "syntax error".toList, [], table⟩
  else ⟨1, "syntax error".toList, [], table⟩

/-- An environment in which the executable is `/srv/minitwit/flag_tool`,
the store opens and statements are evaluated by `refStep`. -/
def refEnv : Env (List Row) where
  exe := .ok "/srv/minitwit/flag_tool".toList
  open_rc := fun _ => 0
  errmsg := "not an error".toList
  step := refStep

/-- The environment `refEnv` with a store that cannot be opened
(`SQLITE_CANTOPEN`). -/
def cantOpenEnv : Env (List Row) where
  exe := .ok "/srv/minitwit/flag_tool".toList
  open_rc := fun _ => 14
  errmsg := "unable to open database file".toList
  step := refStep

/-- A message table with two unflagged posts, 1 and 42. -/
def refTable : List Row :=
  [⟨1, [some "7".toList, some "hello, world".toList, none], 0⟩,
   ⟨42, [some "7".toList, some "second post".toList, some "1700000000".toList], 0⟩]

/-- An executable path of 4094 bytes: a directory name of 4084 bytes followed
by `/flag_tool`. -/
def longExe : CStr := '/' :: List.replicate 4083 'a' ++ "/flag_tool".toList

/-- The environment `refEnv` with the executable at `longExe`. -/
def longEnv : Env (List Row) where
  exe := .ok longExe
  open_rc := fun _ => 0
  errmsg := "not an error".toList
  step := refStep

/-- An argument of 466 digits, one more than fits the query buffer after the
statement head. -/
def longArg : CStr := List.replicate 464 '0' ++ "42".toList

/-! ## Reading a trace: basic facts -/

theorem stdoutOf_append (s t : List Event) : stdoutOf (s ++ t) = stdoutOf s ++ stdoutOf t := by
  induction s with
  | nil => rfl
  | cons e s ih => cases e <;> simp [stdoutOf, ih]

theorem stderrOf_append (s t : List Event) : stderrOf (s ++ t) = stderrOf s ++ stderrOf t := by
  induction s with
  | nil => rfl
  | cons e s ih => cases e <;> simp [stderrOf, ih]

theorem queriesOf_append (s t : List Event) :
    queriesOf (s ++ t) = queriesOf s ++ queriesOf t := by
  induction s with
  | nil => rfl
  | cons e s ih => cases e <;> simp [queriesOf, ih]

theorem closesOf_append (s t : List Event) : closesOf (s ++ t) = closesOf s + closesOf t := by
  induction s with
  | nil => simp [closesOf]
  | cons e s ih => cases e <;> simp [closesOf, ih]; omega

theorem opensOf_append (s t : List Event) : opensOf (s ++ t) = opensOf s + opensOf t := by
  induction s with
  | nil => simp [opensOf]
  | cons e s ih => cases e <;> simp [opensOf, ih]; omega

theorem queriesOf_rowEvents (rows : List RowValues) : queriesOf (rowEvents rows) = [] := by
  induction rows with
  | nil => rfl
  | cons r rows ih => simpa [rowEvents, queriesOf] using ih

theorem stderrOf_rowEvents (rows : List RowValues) : stderrOf (rowEvents rows) = [] := by
  induction rows with
  | nil => rfl
  | cons r rows ih => simpa [rowEvents, stderrOf] using ih

theorem closesOf_rowEvents (rows : List RowValues) : closesOf (rowEvents rows) = 0 := by
  induction rows with
  | nil => rfl
  | cons r rows ih => simpa [rowEvents, closesOf] using ih

theorem opensOf_rowEvents (rows : List RowValues) : opensOf (rowEvents rows) = 0 := by
  induction rows with
  | nil => rfl
  | cons r rows ih => simpa [rowEvents, opensOf] using ih

theorem stdoutOf_rowEvents (rows : List RowValues) :
    stdoutOf (rowEvents rows) = (rows.map callbackPrint).flatten := by
  induction rows with
  | nil => rfl
  | cons r rows ih => simpa [rowEvents, stdoutOf] using ih

/-! ## The callback never stops the engine -/

theorem deliver_callback (rows : List RowValues) :
    deliver callback rows = (rowEvents rows, false) := by
  induction rows with
  | nil => rfl
  | cons r rows ih => simp [deliver, callback, rowEvents] at ih ⊢; simp [ih]

theorem sqlite3_exec_callback {σ : Type} (env : Env σ) (db : σ) (sql : CStr) :
    sqlite3_exec env db sql callback =
      ⟨(env.step db sql).rc, (env.step db sql).zErrMsg, rowEvents (env.step db sql).rows,
        (env.step db sql).db⟩ := by
  simp [sqlite3_exec, deliver_callback]

/-! ## The dispatcher, branch by branch -/

theorem flag_ne_of_literals : HELP_FLAG ≠ DUMP_FLAG := by decide

theorem main_help {σ : Type} (env : Env σ) (prog p : CStr) (db : σ) (h : SetupOk env p) :
    main env [prog, HELP_FLAG] db =
      ⟨0, db, announce p ++ [Event.stdout (docStr ++ "\n".toList), Event.sqlite3_close]⟩ := by
  obtain ⟨h1, h2⟩ := h
  simp [main, h1, h2, announce]

theorem main_dump {σ : Type} (env : Env σ) (prog p : CStr) (db : σ) (h : SetupOk env p) :
    main env [prog, DUMP_FLAG] db =
      ⟨0, (env.step db SELECT_ALL).db,
        announce p ++ Event.sqlite3_exec SELECT_ALL :: rowEvents (env.step db SELECT_ALL).rows ++
          (if (env.step db SELECT_ALL).rc ≠ SQLITE_OK then
            [Event.stderr ("SQL error: ".toList ++ (env.step db SELECT_ALL).zErrMsg ++ "\n".toList)]
           else []) ++ [Event.sqlite3_close]⟩ := by
  obtain ⟨h1, h2⟩ := h
  have hne : DUMP_FLAG ≠ HELP_FLAG := by decide
  simp [main, h1, h2, announce, hne, sqlite3_exec_callback]

theorem main_flag {σ : Type} (env : Env σ) (prog p a : CStr) (rest : List CStr) (db : σ)
    (h : SetupOk env p) (hh : a ≠ HELP_FLAG) (hi : a ≠ DUMP_FLAG) :
    main env (prog :: a :: rest) db =
      ⟨0, (flagLoop env (a :: rest) db).1,
        announce p ++ (flagLoop env (a :: rest) db).2 ++ [Event.sqlite3_close]⟩ := by
  obtain ⟨h1, h2⟩ := h
  simp [main, h1, h2, announce, hh, hi]

theorem main_noargs {σ : Type} (env : Env σ) (prog p : CStr) (db : σ) (h : SetupOk env p) :
    main env [prog] db = ⟨0, db, announce p ++ [Event.sqlite3_close]⟩ := by
  obtain ⟨h1, h2⟩ := h
  simp [main, h1, h2, announce]

theorem main_skip {σ : Type} (env : Env σ) (prog p a b : CStr) (rest : List CStr) (db : σ)
    (h : SetupOk env p) (ha : a = HELP_FLAG ∨ a = DUMP_FLAG) :
    main env (prog :: a :: b :: rest) db = ⟨0, db, announce p ++ [Event.sqlite3_close]⟩ := by
  obtain ⟨h1, h2⟩ := h
  rcases ha with ha | ha <;> simp [main, h1, h2, announce, ha]

/-! ## The flag loop -/

theorem flagLoop_cons {σ : Type} (env : Env σ) (a : CStr) (rest : List CStr) (db : σ) :
    flagLoop env (a :: rest) db =
      ((flagLoop env rest (env.step db (flagQuery a)).db).1,
        Event.sqlite3_exec (flagQuery a) :: rowEvents (env.step db (flagQuery a)).rows ++
          flagReport (env.step db (flagQuery a)).rc (env.step db (flagQuery a)).zErrMsg a ::
            (flagLoop env rest (env.step db (flagQuery a)).db).2) := by
  rw [flagLoop, sqlite3_exec_callback]

theorem queriesOf_flagReport (rc : Int) (msg a : CStr) (t : List Event) :
    queriesOf (flagReport rc msg a :: t) = queriesOf t := by
  unfold flagReport
  split <;> rfl

theorem closesOf_flagReport (rc : Int) (msg a : CStr) (t : List Event) :
    closesOf (flagReport rc msg a :: t) = closesOf t := by
  unfold flagReport
  split <;> rfl

theorem opensOf_flagReport (rc : Int) (msg a : CStr) (t : List Event) :
    opensOf (flagReport rc msg a :: t) = opensOf t := by
  unfold flagReport
  split <;> rfl

theorem flagLoop_queries {σ : Type} (env : Env σ) (args : List CStr) (db : σ) :
    queriesOf (flagLoop env args db).2 = args.map flagQuery := by
  induction args generalizing db with
  | nil => rfl
  | cons a rest ih =>
    rw [flagLoop_cons]
    simp [queriesOf, queriesOf_append, queriesOf_rowEvents, queriesOf_flagReport, ih]

theorem flagLoop_closes {σ : Type} (env : Env σ) (args : List CStr) (db : σ) :
    closesOf (flagLoop env args db).2 = 0 := by
  induction args generalizing db with
  | nil => rfl
  | cons a rest ih =>
    rw [flagLoop_cons]
    simp [closesOf, closesOf_append, closesOf_rowEvents, closesOf_flagReport, ih]

theorem flagLoop_opens {σ : Type} (env : Env σ) (args : List CStr) (db : σ) :
    opensOf (flagLoop env args db).2 = 0 := by
  induction args generalizing db with
  | nil => rfl
  | cons a rest ih =>
    rw [flagLoop_cons]
    simp [opensOf, opensOf_append, opensOf_rowEvents, opensOf_flagReport, ih]

/-- The events of the flag loop, argument by argument, in terms of the
engine's answers. -/
theorem flagLoop_trace {σ : Type} (env : Env σ) (args : List CStr) (db : σ) :
    (flagLoop env args db).2 =
      (List.zip args (answers env db (args.map flagQuery))).flatMap fun ar =>
        Event.sqlite3_exec (flagQuery ar.1) :: rowEvents ar.2.rows ++
          [flagReport ar.2.rc ar.2.zErrMsg ar.1] := by
  induction args generalizing db with
  | nil => rfl
  | cons a rest ih =>
    rw [flagLoop_cons]
    simp [answers, ih]

theorem answers_length {σ : Type} (env : Env σ) (db : σ) (qs : List CStr) :
    (answers env db qs).length = qs.length := by
  induction qs generalizing db with
  | nil => rfl
  | cons q qs ih => simp [answers, ih]

/-! ## When is a statement issued at all -/

theorem queriesOf_announce (p : CStr) : queriesOf (announce p) = [] := rfl

theorem stdoutOf_announce (p : CStr) :
    stdoutOf (announce p) = "Opening database at: ".toList ++ p ++ "\n".toList := by
  simp [announce, stdoutOf]

theorem main_of_setup_failure {σ : Type} (env : Env σ) (argv : List CStr) (db : σ)
    (h : ¬ ∃ p, SetupOk env p) :
    (main env argv db).status = 1 ∧ queriesOf (main env argv db).trace = [] ∧
      (main env argv db).db = db := by
  unfold main
  cases hp : get_db_path env PATH_MAX with
  | error e => simp [queriesOf]
  | ok p =>
    have ho : env.open_rc p ≠ 0 := fun ho => h ⟨p, hp, ho⟩
    simp [ho, queriesOf]

theorem main_queries {σ : Type} (env : Env σ) (prog p : CStr) (args : List CStr) (db : σ)
    (hsetup : SetupOk env p) :
    queriesOf (main env (prog :: args) db).trace =
      (match args with
       | [] => []
       | a :: rest =>
         if a = HELP_FLAG then []
         else if a = DUMP_FLAG then (if rest = [] then [SELECT_ALL] else [])
         else (a :: rest).map flagQuery) := by
  match args with
  | [] => simp [main_noargs env prog p db hsetup, queriesOf_append, queriesOf_announce, queriesOf]
  | [a] =>
    by_cases hh : a = HELP_FLAG
    · subst hh
      simp [main_help env prog p db hsetup, queriesOf_append, queriesOf_announce, queriesOf]
    · by_cases hi : a = DUMP_FLAG
      · subst hi
        simp only [main_dump env prog p db hsetup, hh, if_false, if_true]
        split_ifs <;>
          simp [queriesOf_append, queriesOf_announce, queriesOf, queriesOf_rowEvents]
      · rw [main_flag env prog p a [] db hsetup hh hi]
        simp only [queriesOf_append, flagLoop_queries, queriesOf_announce, hh, hi]
        simp [queriesOf]
  | a :: b :: rest =>
    by_cases hh : a = HELP_FLAG
    · subst hh
      rw [main_skip env prog p HELP_FLAG b rest db hsetup (Or.inl rfl)]
      simp [queriesOf_append, queriesOf_announce, queriesOf]
    · by_cases hi : a = DUMP_FLAG
      · subst hi
        rw [main_skip env prog p DUMP_FLAG b rest db hsetup (Or.inr rfl)]
        simp [queriesOf_append, queriesOf_announce, queriesOf, flag_ne_of_literals.symm]
      · rw [main_flag env prog p a (b :: rest) db hsetup hh hi]
        simp only [queriesOf_append, flagLoop_queries, queriesOf_announce, hh, hi]
        simp [queriesOf]

/-! ## The claims -/

/-- C3: in flag mode (setup succeeded, first argument neither `-h` nor `-i`),
whatever the engine answers, the tool hands the engine exactly one write
statement per argument, in argument order, and the trace is, argument by
argument: the statement, the rows the engine produced for it (normally none)
printed by the callback, and exactly one report, which is the line
`Flagged entry: <arg>` on standard output when the engine returned `SQLITE_OK`
and `SQL error: <engine text>` on the error stream otherwise. Every argument is
answered at the store left by the previous one, so a failure stops nothing. -/
theorem flag_mode_one_statement_and_one_report_per_argument {σ : Type} (env : Env σ)
    (prog p a : CStr) (rest : List CStr) (db : σ)
    (hsetup : SetupOk env p) (hh : a ≠ HELP_FLAG) (hi : a ≠ DUMP_FLAG) :
    (answers env db ((a :: rest).map flagQuery)).length = (a :: rest).length ∧
    queriesOf (main env (prog :: a :: rest) db).trace = (a :: rest).map flagQuery ∧
    (main env (prog :: a :: rest) db).trace =
      announce p ++
      ((List.zip (a :: rest) (answers env db ((a :: rest).map flagQuery))).flatMap fun ar =>
        Event.sqlite3_exec (flagQuery ar.1) :: rowEvents ar.2.rows ++
          [if ar.2.rc = SQLITE_OK then
             Event.stdout ("Flagged entry: ".toList ++ ar.1 ++ "\n".toList)
           else Event.stderr ("SQL error: ".toList ++ ar.2.zErrMsg ++ "\n".toList)]) ++
      [Event.sqlite3_close] := by
  refine ⟨by rw [answers_length, List.length_map], ?_, ?_⟩
  · rw [main_flag env prog p a rest db hsetup hh hi]
    simp only [queriesOf_append, flagLoop_queries, queriesOf_announce]
    simp [queriesOf]
  · rw [main_flag env prog p a rest db hsetup hh hi]
    simp only [flagLoop_trace, flagReport, ite_not]

/-- Witness for C3: the arguments `42 9999 x` against the reference engine. -/
theorem flag_mode_one_statement_and_one_report_per_argument_witness :
    SetupOk refEnv "/srv/minitwit/tmp/minitwit".toList ∧
    "42".toList ≠ HELP_FLAG ∧ "42".toList ≠ DUMP_FLAG ∧
    queriesOf (main refEnv ["flag_tool".toList, "42".toList, "x".toList, "1".toList]
      refTable).trace =
      ["UPDATE message SET flagged=1 WHERE message_id=42".toList,
       "UPDATE message SET flagged=1 WHERE message_id=x".toList,
       "UPDATE message SET flagged=1 WHERE message_id=1".toList] :=
  ⟨⟨rfl, rfl⟩, by decide, by decide,
    (flag_mode_one_statement_and_one_report_per_argument refEnv "flag_tool".toList
      "/srv/minitwit/tmp/minitwit".toList "42".toList ["x".toList, "1".toList] refTable
      ⟨rfl, rfl⟩ (by decide) (by decide)).2.1⟩

/-- C5, as the code has it: once the store is open, flag mode (one write
statement per argument, in argument order) is selected exactly when there is
at least one argument and the first argument is neither `-h` nor `-i`; the
later arguments are not inspected. A lone `-i` is dump mode; a lone `-h`, no
argument at all, and two or more arguments of which the first is `-h` or `-i`
issue no statement and leave the store as it was. -/
theorem flag_mode_is_decided_by_the_first_argument {σ : Type} (env : Env σ)
    (prog p : CStr) (args : List CStr) (db : σ) (hsetup : SetupOk env p) :
    queriesOf (main env (prog :: args) db).trace =
      (match args with
       | [] => []
       | a :: rest =>
         if a = HELP_FLAG then []
         else if a = DUMP_FLAG then (if rest = [] then [SELECT_ALL] else [])
         else (a :: rest).map flagQuery) ∧
    (∀ a b rest, args = a :: b :: rest → a = HELP_FLAG ∨ a = DUMP_FLAG →
      queriesOf (main env (prog :: args) db).trace = [] ∧
        (main env (prog :: args) db).db = db) := by
  refine ⟨main_queries env prog p args db hsetup, ?_⟩
  rintro a b rest rfl ha
  rw [main_skip env prog p a b rest db hsetup ha]
  simp [queriesOf_append, queriesOf_announce, queriesOf]

/-- Witness for C5: `-i 42` falls through, with no statement. -/
theorem flag_mode_is_decided_by_the_first_argument_witness :
    SetupOk refEnv "/srv/minitwit/tmp/minitwit".toList ∧
    queriesOf (main refEnv ["flag_tool".toList, DUMP_FLAG, "42".toList] refTable).trace = [] ∧
    (main refEnv ["flag_tool".toList, DUMP_FLAG, "42".toList] refTable).db = refTable :=
  ⟨⟨rfl, rfl⟩,
    (flag_mode_is_decided_by_the_first_argument refEnv "flag_tool".toList
      "/srv/minitwit/tmp/minitwit".toList [DUMP_FLAG, "42".toList] refTable ⟨rfl, rfl⟩).2
      DUMP_FLAG "42".toList [] rfl (Or.inr rfl)⟩

/-- Counterexample to C5 as stated: the argument list `42 -i` mixes an
identifier with the dump flag, yet the tool is in flag mode: it issues a write
statement for `42` and one for `-i`, and post 42 ends up flagged. -/
theorem dump_flag_after_an_identifier_is_flagged_too :
    DUMP_FLAG ∈ ["42".toList, DUMP_FLAG] ∧
    queriesOf (main refEnv ["flag_tool".toList, "42".toList, DUMP_FLAG] refTable).trace =
      ["UPDATE message SET flagged=1 WHERE message_id=42".toList,
       "UPDATE message SET flagged=1 WHERE message_id=-i".toList] ∧
    (main refEnv ["flag_tool".toList, "42".toList, DUMP_FLAG] refTable).db ≠ refTable := by
  decide

/-- C7 at the failing input: when `sqlite3_open` fails (here with
`SQLITE_CANTOPEN`), whatever the arguments, the run calls `sqlite3_open` once
and `sqlite3_close` not at all before it returns 1. -/
theorem open_failure_path_never_closes (argv : List CStr) (db : List Row) :
    opensOf (main cantOpenEnv argv db).trace = 1 ∧
    closesOf (main cantOpenEnv argv db).trace = 0 ∧
    (main cantOpenEnv argv db).status = 1 := by
  have hp : get_db_path cantOpenEnv PATH_MAX = .ok "/srv/minitwit/tmp/minitwit".toList := rfl
  have ho : cantOpenEnv.open_rc "/srv/minitwit/tmp/minitwit".toList ≠ 0 := by decide
  unfold main
  simp only [hp, ho, if_true, ne_eq, not_false_eq_true]
  decide

/-- Every path on which the store was opened successfully ends with exactly one
`sqlite3_close`, after exactly one `sqlite3_open`. -/
theorem close_once_after_successful_open {σ : Type} (env : Env σ) (argv : List CStr) (db : σ)
    (p : CStr) (hsetup : SetupOk env p) :
    opensOf (main env argv db).trace = 1 ∧ closesOf (main env argv db).trace = 1 := by
  obtain ⟨h1, h2⟩ := hsetup
  unfold main
  simp only [h1, h2, ne_eq, not_true_eq_false, if_false]
  split_ifs <;>
    simp [opensOf, closesOf, opensOf_append, closesOf_append, sqlite3_exec_callback,
      opensOf_rowEvents, closesOf_rowEvents, flagLoop_closes, flagLoop_opens]

/-- C8: a statement reaches the engine only in dump mode (the arguments are
exactly `-i`) or in flag mode (the first argument is neither `-h` nor `-i`).
With exactly `-h` and with no argument, no statement is issued and the store
after the run is the store before it; when the store was opened, standard
output is then the path announcement followed by the usage text and a newline
for `-h`, and the path announcement alone for no argument. -/
theorem help_and_empty_argument_list_issue_no_statement {σ : Type} (env : Env σ)
    (prog : CStr) (db : σ) :
    (∀ args, queriesOf (main env (prog :: args) db).trace ≠ [] →
      args = [DUMP_FLAG] ∨ ∃ a rest, args = a :: rest ∧ a ≠ HELP_FLAG ∧ a ≠ DUMP_FLAG) ∧
    queriesOf (main env [prog, HELP_FLAG] db).trace = [] ∧
    (main env [prog, HELP_FLAG] db).db = db ∧
    queriesOf (main env [prog] db).trace = [] ∧
    (main env [prog] db).db = db ∧
    (∀ p, SetupOk env p →
      stdoutOf (main env [prog, HELP_FLAG] db).trace =
        "Opening database at: ".toList ++ p ++ "\n".toList ++ (docStr ++ "\n".toList) ∧
      stdoutOf (main env [prog] db).trace =
        "Opening database at: ".toList ++ p ++ "\n".toList) := by
  by_cases h : ∃ p, SetupOk env p
  · obtain ⟨p, hp⟩ := h
    refine ⟨?_, ?_, ?_, ?_, ?_, ?_⟩
    · intro args hq
      rw [main_queries env prog p args db hp] at hq
      match args, hq with
      | [], hq => exact absurd rfl hq
      | a :: rest, hq =>
        by_cases hh : a = HELP_FLAG
        · simp [hh] at hq
        · by_cases hi : a = DUMP_FLAG
          · by_cases hr : rest = []
            · left; rw [hi, hr]
            · simp [hh, hi, hr] at hq
          · exact Or.inr ⟨a, rest, rfl, hh, hi⟩
    · simp [main_help env prog p db hp, queriesOf_append, queriesOf_announce, queriesOf]
    · simp [main_help env prog p db hp]
    · simp [main_noargs env prog p db hp, queriesOf_append, queriesOf_announce, queriesOf]
    · simp [main_noargs env prog p db hp]
    · intro q hq
      have hpq : p = q := by
        have := hp.1.symm.trans hq.1
        simpa using this
      subst hpq
      constructor
      · simp [main_help env prog p db hp, stdoutOf_append, stdoutOf_announce, stdoutOf]
      · simp [main_noargs env prog p db hp, stdoutOf_append, stdoutOf_announce, stdoutOf]
  · have hf := fun argv => main_of_setup_failure env argv db h
    refine ⟨fun args hq => absurd (hf (prog :: args)).2.1 hq, (hf _).2.1, (hf _).2.2,
      (hf _).2.1, (hf _).2.2, fun p hp => absurd ⟨p, hp⟩ h⟩

/-- Witness for C8: `-h` against the reference store prints the announcement
and the usage text. -/
theorem help_and_empty_argument_list_issue_no_statement_witness :
    SetupOk refEnv "/srv/minitwit/tmp/minitwit".toList ∧
    stdoutOf (main refEnv ["flag_tool".toList, HELP_FLAG] refTable).trace =
      "Opening database at: /srv/minitwit/tmp/minitwit\n".toList ++ (docStr ++ "\n".toList) ∧
    stdoutOf (main refEnv ["flag_tool".toList] refTable).trace =
      "Opening database at: /srv/minitwit/tmp/minitwit\n".toList :=
  ⟨⟨rfl, rfl⟩,
    (help_and_empty_argument_list_issue_no_statement refEnv "flag_tool".toList
      refTable).2.2.2.2.2 "/srv/minitwit/tmp/minitwit".toList ⟨rfl, rfl⟩⟩

/-! ## The row callback -/

theorem callbackPrint_cons_cons (v w : Option CStr) (rest : RowValues) :
    callbackPrint (v :: w :: rest) =
      v.getD "NULL".toList ++ ",".toList ++ callbackPrint (w :: rest) := rfl

theorem callbackPrint_eq_intercalate (row : RowValues) (h : row ≠ []) :
    callbackPrint row =
      ",".toList.intercalate (row.map fun v => v.getD "NULL".toList) ++ "\n".toList := by
  induction row with
  | nil => exact absurd rfl h
  | cons v rest ih =>
    cases rest with
    | nil => simp [callbackPrint, List.intercalate]
    | cons w rest =>
      rw [callbackPrint_cons_cons, ih (by simp)]
      simp [List.intercalate]

theorem count_callbackPrint_newline (row : RowValues) (h : row ≠ [])
    (hv : ∀ v ∈ row, '\n' ∉ v.getD []) : List.count '\n' (callbackPrint row) = 1 := by
  have hcell : ∀ v : Option CStr, v ∈ row → List.count '\n' (v.getD "NULL".toList) = 0 := by
    intro v hmem
    cases v with
    | none => decide
    | some s => exact List.count_eq_zero.mpr (hv (some s) hmem)
  induction row with
  | nil => exact absurd rfl h
  | cons v rest ih =>
    cases rest with
    | nil =>
      simp only [callbackPrint, List.count_append, hcell v (by simp)]
      decide
    | cons w rest =>
      rw [callbackPrint_cons_cons, List.count_append, List.count_append, hcell v (by simp),
        ih (by simp) (fun u hu => hv u (List.mem_cons_of_mem _ hu))
          (fun u hu => hcell u (List.mem_cons_of_mem _ hu))]
      decide

theorem count_callbackPrint_comma (row : RowValues) (h : row ≠ [])
    (hv : ∀ v ∈ row, ',' ∉ v.getD []) : List.count ',' (callbackPrint row) + 1 = row.length := by
  have hcell : ∀ v : Option CStr, v ∈ row → List.count ',' (v.getD "NULL".toList) = 0 := by
    intro v hmem
    cases v with
    | none => decide
    | some s => exact List.count_eq_zero.mpr (hv (some s) hmem)
  induction row with
  | nil => exact absurd rfl h
  | cons v rest ih =>
    cases rest with
    | nil =>
      simp only [callbackPrint, List.count_append, hcell v (by simp), List.length_singleton]
      decide
    | cons w rest =>
      have ih' := ih (by simp) (fun u hu => hv u (List.mem_cons_of_mem _ hu))
          (fun u hu => hcell u (List.mem_cons_of_mem _ hu))
      rw [callbackPrint_cons_cons, List.count_append, List.count_append, hcell v (by simp)]
      have hc : List.count ',' ",".toList = 1 := by decide
      rw [hc, List.length_cons, ← ih']
      omega

theorem count_newline_dump (rows : List RowValues)
    (h : ∀ row ∈ rows, row ≠ [] ∧ ∀ v ∈ row, '\n' ∉ v.getD []) :
    List.count '\n' (rows.map callbackPrint).flatten = rows.length := by
  induction rows with
  | nil => rfl
  | cons row rows ih =>
    rw [List.map_cons, List.flatten_cons, List.count_append,
      count_callbackPrint_newline row (h row (by simp)).1 (h row (by simp)).2,
      ih (fun r hr => h r (List.mem_cons_of_mem _ hr)), List.length_cons]
    omega

/-- C6, as the code has it: the row callback writes, for a row of one or more
columns, the column values in column order joined by single commas and ended by
one newline, `NULL` standing for a null value, and returns 0; so in dump mode
every row the engine produces is printed, in order, after the path
announcement. When no value contains a newline the dump has exactly as many
newlines (lines) as rows; and a line has as many comma-separated fields as its
row has columns when, in addition, no value of that row contains a comma. -/
theorem dump_prints_each_row_as_one_comma_joined_line {σ : Type} (env : Env σ)
    (prog p : CStr) (db : σ) (hsetup : SetupOk env p) :
    (∀ row : RowValues, row ≠ [] →
      callback row =
        (",".toList.intercalate (row.map fun v => v.getD "NULL".toList) ++ "\n".toList, 0)) ∧
    stdoutOf (main env [prog, DUMP_FLAG] db).trace =
      "Opening database at: ".toList ++ p ++ "\n".toList ++
        ((env.step db SELECT_ALL).rows.map callbackPrint).flatten ∧
    ((∀ row ∈ (env.step db SELECT_ALL).rows, row ≠ [] ∧ ∀ v ∈ row, '\n' ∉ v.getD []) →
      List.count '\n' ((env.step db SELECT_ALL).rows.map callbackPrint).flatten =
        (env.step db SELECT_ALL).rows.length) ∧
    (∀ row ∈ (env.step db SELECT_ALL).rows, row ≠ [] → (∀ v ∈ row, ',' ∉ v.getD []) →
      List.count ',' (callbackPrint row) + 1 = row.length) := by
  refine ⟨fun row h => ?_, ?_, count_newline_dump _, fun row _ h hv =>
    count_callbackPrint_comma row h hv⟩
  · rw [callback, callbackPrint_eq_intercalate row h]
  · rw [main_dump env prog p db hsetup]
    simp only [stdoutOf_append, stdoutOf_announce]
    split_ifs <;> simp [stdoutOf, stdoutOf_append, stdoutOf_rowEvents]

/-- Witness for C6: the dump of a one-row table without commas in its values. -/
theorem dump_prints_each_row_as_one_comma_joined_line_witness :
    SetupOk refEnv "/srv/minitwit/tmp/minitwit".toList ∧
    stdoutOf (main refEnv ["flag_tool".toList, DUMP_FLAG]
      [⟨42, [some "7".toList, none], 0⟩]).trace =
      "Opening database at: /srv/minitwit/tmp/minitwit\n42,7,NULL,0\n".toList ∧
    List.count ',' (callbackPrint [some "42".toList, some "7".toList, none, some "0".toList])
      + 1 = 4 :=
  ⟨⟨rfl, rfl⟩,
    (dump_prints_each_row_as_one_comma_joined_line refEnv "flag_tool".toList
      "/srv/minitwit/tmp/minitwit".toList [⟨42, [some "7".toList, none], 0⟩] ⟨rfl, rfl⟩).2.1,
    (dump_prints_each_row_as_one_comma_joined_line refEnv "flag_tool".toList
      "/srv/minitwit/tmp/minitwit".toList [⟨42, [some "7".toList, none], 0⟩] ⟨rfl, rfl⟩).2.2.2
      [some "42".toList, some "7".toList, none, some "0".toList] (by decide) (by decide)
      (by decide)⟩

/-- Counterexample to C6 as stated: the first post of `refTable` has five
columns, none with a newline, and its text is `hello, world`; its line in the
dump is `1,7,hello, world,NULL,0`, which has six comma-separated fields. -/
theorem comma_in_a_value_adds_a_field_to_the_line :
    (rowValues ⟨1, [some "7".toList, some "hello, world".toList, none], 0⟩).length = 5 ∧
    (∀ v ∈ rowValues ⟨1, [some "7".toList, some "hello, world".toList, none], 0⟩,
      '\n' ∉ v.getD []) ∧
    stdoutOf (main refEnv ["flag_tool".toList, DUMP_FLAG]
      [⟨1, [some "7".toList, some "hello, world".toList, none], 0⟩]).trace =
      "Opening database at: /srv/minitwit/tmp/minitwit\n1,7,hello, world,NULL,0\n".toList ∧
    List.count ','
      (callbackPrint (rowValues ⟨1, [some "7".toList, some "hello, world".toList, none], 0⟩))
      + 1 = 6 := by
  decide

/-! ## The store path -/

theorem rdropWhile_append_of_all (f : Char → Bool) (l r : CStr) (h : ∀ x ∈ r, f x = true) :
    (l ++ r).rdropWhile f = l.rdropWhile f := by
  induction r using List.reverseRecOn with
  | nil => simp
  | append_singleton r x ih =>
    rw [← List.append_assoc, List.rdropWhile_concat_pos _ _ _ (h x (by simp))]
    exact ih fun y hy => h y (by simp [hy])

/-- The directory name of `<dir>/<name>` is `<dir>` when `<dir>` does not end
with a slash and `<name>` is a non-empty name without slash. -/
theorem dirname_of_dir_slash_name (d name : CStr) (c e : Char) (hc : c ≠ '/') (he : e ≠ '/')
    (hname : ∀ x ∈ name, x ≠ '/') :
    dirname ((d ++ [c]) ++ '/' :: (name ++ [e])) = d ++ [c] := by
  have hq : ((d ++ [c]) ++ '/' :: (name ++ [e])).rdropWhile (· == '/') =
      (d ++ [c]) ++ '/' :: (name ++ [e]) := by
    have : (d ++ [c]) ++ '/' :: (name ++ [e]) = ((d ++ [c]) ++ '/' :: name) ++ [e] := by simp
    rw [this, List.rdropWhile_concat_neg]
    simpa using he
  have hhead : ((d ++ [c]) ++ '/' :: (name ++ [e])).rdropWhile (· != '/') =
      (d ++ [c]) ++ ['/'] := by
    have : (d ++ [c]) ++ '/' :: (name ++ [e]) = ((d ++ [c]) ++ ['/']) ++ (name ++ [e]) := by simp
    rw [this, rdropWhile_append_of_all, List.rdropWhile_concat_neg]
    · simp
    · intro x hx
      rcases List.mem_append.mp hx with hx | hx
      · simpa using hname x hx
      · simp only [List.mem_singleton] at hx
        simpa [hx] using he
  have hr : ((d ++ [c]) ++ ['/']).rdropWhile (· == '/') = d ++ [c] := by
    rw [List.rdropWhile_concat_pos _ _ _ (by simp), List.rdropWhile_concat_neg]
    simpa using hc
  unfold dirname
  simp only [hq, hhead, hr]
  simp

theorem longExe_length : longExe.length = 4094 := by
  simp only [longExe, List.length_cons, List.length_append, List.length_replicate]
  rfl

theorem dirname_longExe : dirname longExe = '/' :: List.replicate 4083 'a' := by
  have h1 : List.replicate 4083 'a' = List.replicate 4082 'a' ++ ['a'] :=
    List.replicate_succ' 4082 'a'
  have h3 : "/flag_tool".toList = '/' :: ("flag_too".toList ++ ['l']) := rfl
  have h2 : longExe =
      (('/' :: List.replicate 4082 'a') ++ ['a']) ++ '/' :: ("flag_too".toList ++ ['l']) := by
    rw [longExe, h1, h3]
    simp only [List.cons_append, List.append_assoc]
  rw [h2, dirname_of_dir_slash_name _ _ _ _ (by decide) (by decide) (by decide), h1]
  rfl

theorem get_db_path_of_exe {σ : Type} (env : Env σ) (exe : CStr) (h : env.exe = .ok exe) :
    get_db_path env PATH_MAX =
      .ok ((dirname (exe.take 4095) ++ "/tmp/minitwit".toList).take 4095) := by
  simp [get_db_path, readlink, h, snprintf, PATH_MAX, DB_SUFFIX]

/-- C9, as the code has it: `get_db_path` reads at most `PATH_MAX - 1 = 4095`
bytes of the executable path and keeps at most 4095 bytes of the directory
name followed by `/tmp/minitwit`. For an executable path of at most 4095 bytes
whose directory name has at most 4082 bytes the result is exactly the
directory name followed by `/tmp/minitwit`. In every case the result depends
on the executable path alone: two environments that agree on it, whatever
else differs, compute the same store path. -/
theorem get_db_path_is_dirname_and_suffix_within_PATH_MAX {σ : Type} (env : Env σ)
    (exe : CStr) (hexe : env.exe = .ok exe) :
    get_db_path env PATH_MAX =
      .ok ((dirname (exe.take 4095) ++ "/tmp/minitwit".toList).take 4095) ∧
    (exe.length ≤ 4095 → (dirname exe).length ≤ 4082 →
      get_db_path env PATH_MAX = .ok (dirname exe ++ "/tmp/minitwit".toList)) ∧
    (∀ (τ : Type) (other : Env τ), other.exe = .ok exe →
      get_db_path other PATH_MAX = get_db_path env PATH_MAX) := by
  refine ⟨get_db_path_of_exe env exe hexe, fun h1 h2 => ?_, fun τ other ho => ?_⟩
  · rw [get_db_path_of_exe env exe hexe, List.take_of_length_le h1, List.take_of_length_le]
    have : "/tmp/minitwit".toList.length = 13 := rfl
    rw [List.length_append, this]
    omega
  · rw [get_db_path_of_exe env exe hexe, get_db_path_of_exe other exe ho]

/-- Witness for C9: the executable `/srv/minitwit/flag_tool`. -/
theorem get_db_path_is_dirname_and_suffix_within_PATH_MAX_witness :
    refEnv.exe = .ok "/srv/minitwit/flag_tool".toList ∧
    get_db_path refEnv PATH_MAX = .ok ("/srv/minitwit".toList ++ "/tmp/minitwit".toList) ∧
    get_db_path cantOpenEnv PATH_MAX = get_db_path refEnv PATH_MAX :=
  ⟨rfl,
    (get_db_path_is_dirname_and_suffix_within_PATH_MAX refEnv "/srv/minitwit/flag_tool".toList
      rfl).2.1 (by decide) (by decide),
    (get_db_path_is_dirname_and_suffix_within_PATH_MAX refEnv "/srv/minitwit/flag_tool".toList
      rfl).2.2 _ cantOpenEnv rfl⟩

/-- Counterexample to C9 as stated: for an executable path of 4094 bytes whose
directory name has 4084 bytes, the store path computed is not the directory
name followed by `/tmp/minitwit` (4097 bytes) but only its first 4095 bytes. -/
theorem long_executable_path_gives_a_cut_store_path :
    longEnv.exe = .ok longExe ∧ longExe.length = 4094 ∧
    get_db_path longEnv PATH_MAX ≠ .ok (dirname longExe ++ "/tmp/minitwit".toList) ∧
    get_db_path longEnv PATH_MAX =
      .ok ('/' :: List.replicate 4083 'a' ++ "/tmp/minitw".toList) := by
  have hlen : longExe.length ≤ 4095 := by rw [longExe_length]; omega
  have e11 : "/tmp/minitw".toList.length = 11 := rfl
  have e13 : "/tmp/minitwit".toList.length = 13 := rfl
  have hval : get_db_path longEnv PATH_MAX =
      .ok ('/' :: List.replicate 4083 'a' ++ "/tmp/minitw".toList) := by
    rw [get_db_path_of_exe longEnv longExe rfl, List.take_of_length_le hlen, dirname_longExe]
    have h13 : "/tmp/minitwit".toList = "/tmp/minitw".toList ++ "it".toList := rfl
    rw [h13, ← List.append_assoc, List.take_left']
    simp only [List.length_cons, List.length_append, List.length_replicate, e11]
  refine ⟨rfl, longExe_length, ?_, hval⟩
  rw [hval, dirname_longExe]
  intro h
  have hl := congrArg List.length (Except.ok.inj h)
  simp only [List.length_cons, List.length_append, List.length_replicate, e11, e13] at hl
  omega

/-! ## The write statement -/

theorem flagQuery_eq_take (arg : CStr) : flagQuery arg = (UPDATE_HEAD ++ arg).take 511 := rfl

theorem UPDATE_HEAD_length : UPDATE_HEAD.length = 46 := rfl

theorem flagQuery_of_short (arg : CStr) (h : arg.length ≤ 465) :
    flagQuery arg = UPDATE_HEAD ++ arg := by
  rw [flagQuery_eq_take, List.take_of_length_le]
  rw [List.length_append, UPDATE_HEAD_length]
  omega

theorem main_flag_single {σ : Type} (env : Env σ) (prog p arg : CStr) (db : σ)
    (hsetup : SetupOk env p) (hh : arg ≠ HELP_FLAG) (hi : arg ≠ DUMP_FLAG) :
    main env [prog, arg] db =
      ⟨0, (env.step db (flagQuery arg)).db,
        announce p ++ (Event.sqlite3_exec (flagQuery arg) ::
          rowEvents (env.step db (flagQuery arg)).rows ++
          [flagReport (env.step db (flagQuery arg)).rc (env.step db (flagQuery arg)).zErrMsg
            arg]) ++ [Event.sqlite3_close]⟩ := by
  rw [main_flag env prog p arg [] db hsetup hh hi, flagLoop_cons]
  rfl

theorem flagQuery_eq_head_take (arg : CStr) : flagQuery arg = UPDATE_HEAD ++ arg.take 465 := by
  rw [flagQuery_eq_take, List.take_append_eq_append_take, UPDATE_HEAD_length,
    List.take_of_length_le (by rw [UPDATE_HEAD_length]; omega)]

/-- C10, as the code has it: in flag mode (store open, first argument neither
`-h` nor `-i`), for every argument of the list, in whatever position and
whatever its text (a later `-h` or `-i` included), the statement handed to the
engine is the first 511 bytes (the 512-byte buffer less its NUL) of
`UPDATE message SET flagged=1 WHERE message_id=` followed by the argument,
that is the head followed by the first 465 bytes of the argument; for an
argument of at most 465 bytes it is the head followed by the whole argument,
unchanged. The whole trace is, argument by argument, that statement, the
callback output for the rows of the engine's answer, and the report, where the
confirmation line names the whole argument whatever its length. -/
theorem flag_statement_is_head_and_argument_within_the_buffer {σ : Type} (env : Env σ)
    (prog p a : CStr) (rest : List CStr) (db : σ) (hsetup : SetupOk env p)
    (hh : a ≠ HELP_FLAG) (hi : a ≠ DUMP_FLAG) :
    queriesOf (main env (prog :: a :: rest) db).trace =
      (a :: rest).map (fun arg => (UPDATE_HEAD ++ arg).take 511) ∧
    queriesOf (main env (prog :: a :: rest) db).trace =
      (a :: rest).map (fun arg => UPDATE_HEAD ++ arg.take 465) ∧
    (∀ (i : Nat) (arg : CStr), (a :: rest)[i]? = some arg → arg.length ≤ 465 →
      (queriesOf (main env (prog :: a :: rest) db).trace)[i]? = some (UPDATE_HEAD ++ arg)) ∧
    (main env (prog :: a :: rest) db).trace =
      announce p ++
      ((List.zip (a :: rest)
          (answers env db ((a :: rest).map fun arg => (UPDATE_HEAD ++ arg).take 511))).flatMap
        fun ar =>
          Event.sqlite3_exec ((UPDATE_HEAD ++ ar.1).take 511) :: rowEvents ar.2.rows ++
            [if ar.2.rc = SQLITE_OK then
               Event.stdout ("Flagged entry: ".toList ++ ar.1 ++ "\n".toList)
             else Event.stderr ("SQL error: ".toList ++ ar.2.zErrMsg ++ "\n".toList)]) ++
      [Event.sqlite3_close] := by
  have hq : queriesOf (main env (prog :: a :: rest) db).trace = (a :: rest).map flagQuery := by
    have := main_queries env prog p (a :: rest) db hsetup
    simpa [hh, hi] using this
  have hq2 : queriesOf (main env (prog :: a :: rest) db).trace =
      (a :: rest).map (fun arg => UPDATE_HEAD ++ arg.take 465) := by
    rw [hq]
    exact List.map_congr_left fun arg _ => flagQuery_eq_head_take arg
  have ht : (main env (prog :: a :: rest) db).trace =
      announce p ++
      ((List.zip (a :: rest) (answers env db ((a :: rest).map flagQuery))).flatMap fun ar =>
        Event.sqlite3_exec (flagQuery ar.1) :: rowEvents ar.2.rows ++
          [if ar.2.rc = SQLITE_OK then
             Event.stdout ("Flagged entry: ".toList ++ ar.1 ++ "\n".toList)
           else Event.stderr ("SQL error: ".toList ++ ar.2.zErrMsg ++ "\n".toList)]) ++
      [Event.sqlite3_close] := by
    rw [main_flag env prog p a rest db hsetup hh hi]
    simp only [flagLoop_trace, flagReport, ite_not]
  refine ⟨hq, hq2, fun i arg hi hlen => ?_, ht⟩
  rw [hq2, List.getElem?_map, hi, Option.map_some', List.take_of_length_le hlen]

/-- Witness for C10: the arguments `42 -i`. -/
theorem flag_statement_is_head_and_argument_within_the_buffer_witness :
    SetupOk refEnv "/srv/minitwit/tmp/minitwit".toList ∧
    "42".toList ≠ HELP_FLAG ∧ "42".toList ≠ DUMP_FLAG ∧
    queriesOf (main refEnv ["flag_tool".toList, "42".toList, DUMP_FLAG] refTable).trace =
      [UPDATE_HEAD ++ "42".toList, UPDATE_HEAD ++ "-i".toList] ∧
    (queriesOf (main refEnv ["flag_tool".toList, "42".toList, DUMP_FLAG] refTable).trace)[1]? =
      some (UPDATE_HEAD ++ DUMP_FLAG) :=
  ⟨⟨rfl, rfl⟩, by decide, by decide,
    (flag_statement_is_head_and_argument_within_the_buffer refEnv "flag_tool".toList
      "/srv/minitwit/tmp/minitwit".toList "42".toList [DUMP_FLAG] refTable ⟨rfl, rfl⟩
      (by decide) (by decide)).2.1,
    (flag_statement_is_head_and_argument_within_the_buffer refEnv "flag_tool".toList
      "/srv/minitwit/tmp/minitwit".toList "42".toList [DUMP_FLAG] refTable ⟨rfl, rfl⟩
      (by decide) (by decide)).2.2.1 1 DUMP_FLAG rfl (by decide)⟩

set_option maxRecDepth 100000 in
/-- Counterexample to C10 as stated: for the argument `0…042` of 466 bytes
(464 zeros before `42`) the statement handed to the engine is not the head
followed by the argument: its last byte is dropped, so the statement names
`0…04`, and it is post 4 rather than 42 that the statement addresses. The
confirmation line still names the whole argument. -/
theorem long_argument_is_cut_in_the_statement :
    longArg.length = 466 ∧
    queriesOf (main refEnv ["flag_tool".toList, longArg] refTable).trace ≠
      [UPDATE_HEAD ++ longArg] ∧
    queriesOf (main refEnv ["flag_tool".toList, longArg] refTable).trace =
      [UPDATE_HEAD ++ (List.replicate 464 '0' ++ "4".toList)] ∧
    Event.stdout ("Flagged entry: ".toList ++ longArg ++ "\n".toList) ∈
      (main refEnv ["flag_tool".toList, longArg] refTable).trace := by
  decide

/-! ## The message table under the write statement -/

theorem numeral_ne_flags (arg : CStr) (n : Nat) (h : numeral arg = some n) :
    arg ≠ HELP_FLAG ∧ arg ≠ DUMP_FLAG := by
  have eh : numeral HELP_FLAG = none := by decide
  have ei : numeral DUMP_FLAG = none := by decide
  constructor <;> rintro rfl
  · rw [eh] at h
    cases h
  · rw [ei] at h
    cases h

theorem forall₂_setFlagged (n : Nat) (table : List Row) :
    List.Forall₂ (fun old new : Row => new.message_id = old.message_id ∧ new.cols = old.cols ∧
      new.flagged = if old.message_id = n then 1 else old.flagged) table (setFlagged n table) := by
  induction table with
  | nil => exact List.Forall₂.nil
  | cons r table ih =>
    refine List.Forall₂.cons ?_ ih
    by_cases h : r.message_id = n <;> simp [h]

theorem setFlagged_of_absent (n : Nat) (table : List Row)
    (h : ∀ r ∈ table, r.message_id ≠ n) : setFlagged n table = table := by
  induction table with
  | nil => rfl
  | cons r table ih =>
    have hr : r.message_id ≠ n := h r (by simp)
    simp only [setFlagged, List.map_cons, hr, if_false]
    exact congrArg _ (ih fun x hx => h x (List.mem_cons_of_mem _ hx))

theorem exists_flagged_of_present (n : Nat) (table : List Row)
    (h : ∃ r ∈ table, r.message_id = n) :
    ∃ r ∈ setFlagged n table, r.message_id = n ∧ r.flagged = 1 := by
  obtain ⟨r, hr, hn⟩ := h
  exact ⟨{ r with flagged := 1 }, List.mem_map.mpr ⟨r, hr, by simp [hn]⟩, hn, rfl⟩

theorem refStep_updatesById : UpdatesById refStep := by
  intro table lit n hn
  have hU : UPDATE_HEAD = 'U' :: UPDATE_HEAD.tail := rfl
  have hS : SELECT_ALL = 'S' :: SELECT_ALL.tail := rfl
  have hne : UPDATE_HEAD ++ lit ≠ SELECT_ALL := by
    rw [hU, hS, List.cons_append]
    intro h
    exact absurd (List.cons.inj h).1 (by decide)
  have htake : (UPDATE_HEAD ++ lit).take UPDATE_HEAD.length = UPDATE_HEAD := List.take_left' rfl
  have hdrop : (UPDATE_HEAD ++ lit).drop UPDATE_HEAD.length = lit := List.drop_left' rfl
  simp [refStep, hne, htake, hdrop, hn]

/-- C1, as the code has it: when the store is open and the engine carries out
the write statement as SQL prescribes, running the tool with one argument that
is a decimal numeral of at most 465 digits (what fits the 512-byte query
buffer after the statement head) for the identifier `n` of a row of the message
table issues exactly the statement
`UPDATE message SET flagged=1 WHERE message_id=<arg>` and leaves the table
row for row as it was, identifiers and all other columns included, except that
the flagged marker of the row with identifier `n` is 1. -/
theorem flagging_a_present_id_sets_only_its_marker (env : Env (List Row))
    (prog p arg : CStr) (n : Nat) (table : List Row)
    (hsetup : SetupOk env p) (hengine : UpdatesById env.step)
    (hnum : numeral arg = some n) (hlen : arg.length ≤ 465)
    (hrow : ∃ r ∈ table, r.message_id = n) :
    queriesOf (main env [prog, arg] table).trace = [UPDATE_HEAD ++ arg] ∧
    List.Forall₂ (fun old new : Row => new.message_id = old.message_id ∧ new.cols = old.cols ∧
      new.flagged = if old.message_id = n then 1 else old.flagged)
      table (main env [prog, arg] table).db ∧
    (∃ r ∈ (main env [prog, arg] table).db, r.message_id = n ∧ r.flagged = 1) := by
  obtain ⟨hh, hi⟩ := numeral_ne_flags arg n hnum
  obtain ⟨_, _, hdb⟩ := hengine table arg n hnum
  rw [main_flag_single env prog p arg table hsetup hh hi, flagQuery_of_short arg hlen]
  refine ⟨?_, ?_, ?_⟩
  · simp [queriesOf_append, queriesOf_announce, queriesOf, queriesOf_rowEvents,
      queriesOf_flagReport]
  · simp only [hdb]
    exact forall₂_setFlagged n table
  · simp only [hdb]
    exact exists_flagged_of_present n table hrow

/-- Witness for C1: flagging post 42 of the reference table. -/
theorem flagging_a_present_id_sets_only_its_marker_witness :
    SetupOk refEnv "/srv/minitwit/tmp/minitwit".toList ∧ UpdatesById refEnv.step ∧
    numeral "42".toList = some 42 ∧ "42".toList.length ≤ 465 ∧
    (∃ r ∈ refTable, r.message_id = 42) ∧
    (∃ r ∈ (main refEnv ["flag_tool".toList, "42".toList] refTable).db,
      r.message_id = 42 ∧ r.flagged = 1) :=
  ⟨⟨rfl, rfl⟩, refStep_updatesById, by decide, by decide, by decide,
    (flagging_a_present_id_sets_only_its_marker refEnv "flag_tool".toList
      "/srv/minitwit/tmp/minitwit".toList "42".toList 42 refTable ⟨rfl, rfl⟩
      refStep_updatesById (by decide) (by decide) (by decide)).2.2⟩

set_option maxRecDepth 100000 in
/-- Counterexample to C1 as stated: the argument `0…042` (464 zeros before
`42`, 466 digits) is a decimal numeral of 42 and post 42 is in the table, but
the statement built for it is cut to `…message_id=0…04`, so the run leaves the
table as it was and post 42 unflagged. -/
theorem long_numeral_of_a_present_id_flags_nothing :
    SetupOk refEnv "/srv/minitwit/tmp/minitwit".toList ∧ UpdatesById refEnv.step ∧
    numeral longArg = some 42 ∧
    (∃ r ∈ refTable, r.message_id = 42) ∧
    (main refEnv ["flag_tool".toList, longArg] refTable).db = refTable ∧
    (∀ r ∈ (main refEnv ["flag_tool".toList, longArg] refTable).db,
      r.message_id = 42 → r.flagged = 0) :=
  ⟨⟨rfl, rfl⟩, refStep_updatesById, by decide, by decide, by decide, by decide⟩

/-- C2, as the code has it: when the store is open and the engine carries out
the write statement as SQL prescribes, running the tool with one decimal
numeral (at most 465 digits) that is the identifier of no row prints the
confirmation line `Flagged entry: <arg>` for it, exactly as for a row that
exists, and nothing on the error stream; the table is unchanged and the exit
status is 0. -/
theorem flagging_an_absent_id_reports_success_and_changes_nothing (env : Env (List Row))
    (prog p arg : CStr) (n : Nat) (table : List Row)
    (hsetup : SetupOk env p) (hengine : UpdatesById env.step)
    (hnum : numeral arg = some n) (hlen : arg.length ≤ 465)
    (habsent : ∀ r ∈ table, r.message_id ≠ n) :
    (main env [prog, arg] table).trace =
      announce p ++
        [Event.sqlite3_exec (UPDATE_HEAD ++ arg),
         Event.stdout ("Flagged entry: ".toList ++ arg ++ "\n".toList),
         Event.sqlite3_close] ∧
    stderrOf (main env [prog, arg] table).trace = [] ∧
    (main env [prog, arg] table).db = table ∧
    (main env [prog, arg] table).status = 0 := by
  obtain ⟨hh, hi⟩ := numeral_ne_flags arg n hnum
  obtain ⟨hrc, hrows, hdb⟩ := hengine table arg n hnum
  rw [main_flag_single env prog p arg table hsetup hh hi, flagQuery_of_short arg hlen]
  simp only [hrc, hrows, hdb, setFlagged_of_absent n table habsent]
  simp [flagReport, rowEvents, stderrOf, announce]

/-- Witness for C2: flagging 9999 in the reference table. -/
theorem flagging_an_absent_id_reports_success_and_changes_nothing_witness :
    SetupOk refEnv "/srv/minitwit/tmp/minitwit".toList ∧ UpdatesById refEnv.step ∧
    numeral "9999".toList = some 9999 ∧ "9999".toList.length ≤ 465 ∧
    (∀ r ∈ refTable, r.message_id ≠ 9999) ∧
    (main refEnv ["flag_tool".toList, "9999".toList] refTable).db = refTable :=
  ⟨⟨rfl, rfl⟩, refStep_updatesById, by decide, by decide, by decide,
    (flagging_an_absent_id_reports_success_and_changes_nothing refEnv "flag_tool".toList
      "/srv/minitwit/tmp/minitwit".toList "9999".toList 9999 refTable ⟨rfl, rfl⟩
      refStep_updatesById (by decide) (by decide) (by decide)).2.2.1⟩

/-- Counterexample to C2 as stated: `tool 9999` on a table without post 9999.
The only report for the argument is the success line `Flagged entry: 9999` on
standard output; nothing is written to the error stream and no count of
affected rows is printed. -/
theorem absent_id_is_reported_as_flagged :
    numeral "9999".toList = some 9999 ∧
    (∀ r ∈ refTable, r.message_id ≠ 9999) ∧
    stdoutOf (main refEnv ["flag_tool".toList, "9999".toList] refTable).trace =
      "Opening database at: /srv/minitwit/tmp/minitwit\nFlagged entry: 9999\n".toList ∧
    stderrOf (main refEnv ["flag_tool".toList, "9999".toList] refTable).trace = [] ∧
    (main refEnv ["flag_tool".toList, "9999".toList] refTable).db = refTable := by
  decide

end FlagTool
